import Mathlib

/-!
# Verification of the `banking` transaction-parsing framework

A shallow embedding, in Lean 4, of the parsing framework of the `banking`
repository (`src/banking/`): the field converters and category classifier of
`bbt.py` and `usaa.py`, the column remapping of `usaa.py`, the parser
dispatch of `parser_factory.py`, and the per-file parse pipelines.

Conventions of the embedding:
* Python `decimal.Decimal` values are modelled as `Rat`; the string
  constructor `Decimal(s)` is modelled by `parseDecimal`, which covers the
  subset of `Decimal`'s grammar exercised here (optional sign, digits with at
  most one point, no exponent, no surrounding whitespace).
* A Python function that may raise is modelled with codomain
  `Except String _`; `Except.error` marks a raised exception and the string
  names the Python exception class.  A function returning Python `None` on a
  branch has codomain `Option _`, with `none` for `None`.
* `pandas` frames are modelled two ways, matching the two kinds of claims:
  as lists of per-institution row structures (for value-level pipeline
  claims) and as lists of column names (for column-presence claims about
  the remapping step).
* The repository is mid-refactor: `src/banking/parser.py` holds an older,
  abstract `Parser` whose `parse` is an abstract method, while `bbt.py` and
  the unit tests call a concrete base implementation (`parse`,
  `remap_cols`, `parse_textfile`) that is not under `src/`.  Those missing
  pieces are modelled from the spec and are marked `Modelled from the
  spec:` in their doc comments.  Everything else is translated from the
  source files.
-/

deriving instance DecidableEq for Except

/-! ## String helpers -/

/-- `leadsWith needle hay`: is `needle` an initial run of `hay`?
Used to model Python regex anchors such as `^--\d+` and `startswith`. -/
def leadsWith : List Char → List Char → Bool
  | [], _ => true
  | _ :: _, [] => false
  | a :: as, b :: bs => a == b && leadsWith as bs

/-- `containsSub needle hay`: does `needle` occur contiguously in `hay`?
Models Python's `in` test on strings (`"salary" in desc`). -/
def containsSub (needle : List Char) : List Char → Bool
  | [] => needle.isEmpty
  | c :: rest => leadsWith needle (c :: rest) || containsSub needle rest

/-- Substring occurrence on `String`s, models Python `needle in hay`. -/
def strContains (hay needle : String) : Bool :=
  containsSub needle.data hay.data

/-- Every character is an ASCII digit. -/
def allDigits (cs : List Char) : Bool := cs.all Char.isDigit

/-- Value of a digit run, most significant first (empty run gives 0). -/
def natOfDigits (cs : List Char) : Nat :=
  cs.foldl (fun n c => 10 * n + (c.toNat - 48)) 0

/-- Split a character run at the first `'.'`:
returns the part before it and, when a `'.'` exists, the part after it. -/
def splitDot : List Char → List Char × Option (List Char)
  | [] => ([], none)
  | '.' :: rest => ([], some rest)
  | c :: rest =>
    let (i, f) := splitDot rest
    (c :: i, f)

/-- Unsigned decimal numeral: digits with at most one point, at least one
digit overall (`"5."`, `".5"`, `"5"` parse; `"."`, `""`, `"1x"` do not). -/
def parseUnsignedDec (cs : List Char) : Option Rat :=
  let (i, f) := splitDot cs
  match f with
  | none =>
    if allDigits i && !i.isEmpty then some (mkRat (natOfDigits i) 1) else none
  | some fs =>
    if allDigits i && allDigits fs && !(i.isEmpty && fs.isEmpty) then
      some (mkRat (natOfDigits i * 10 ^ fs.length + natOfDigits fs) (10 ^ fs.length))
    else none

/-- Model of the Python `decimal.Decimal` string constructor on the grammar
subset this program feeds it: optional sign, then an unsigned decimal
numeral.  `none` models the constructor raising `InvalidOperation`. -/
def parseDecimal : List Char → Option Rat
  | '-' :: rest => (parseUnsignedDec rest).map (fun q => -q)
  | '+' :: rest => parseUnsignedDec rest
  | rest => parseUnsignedDec rest

/-- Model of Python `int(s)` as used by `numpy.int16(s)`: optional sign then
a nonempty digit run; `none` models `ValueError`. -/
def parseIntChars : List Char → Option Int
  | '-' :: rest =>
    if allDigits rest && !rest.isEmpty then some (-(natOfDigits rest : Int)) else none
  | '+' :: rest =>
    if allDigits rest && !rest.isEmpty then some ((natOfDigits rest : Int)) else none
  | rest =>
    if allDigits rest && !rest.isEmpty then some ((natOfDigits rest : Int)) else none

/-- `parseIntChars` on a `String`. -/
def parseIntStr (s : String) : Option Int := parseIntChars s.data

/-- A calendar date as parsed by `strptime(_, "%m/%d/%Y")`. -/
structure PDate where
  month : Nat
  day : Nat
  year : Nat
deriving DecidableEq, Repr

/-- Split a character run at every occurrence of a separator character. -/
def splitOnChar (sep : Char) : List Char → List (List Char)
  | [] => [[]]
  | c :: rest =>
    let groups := splitOnChar sep rest
    if c == sep then [] :: groups
    else
      match groups with
      | [] => [[c]]
      | g :: gs => (c :: g) :: gs

/-- Model of `datetime.datetime.strptime(s, "%m/%d/%Y").date()` on the
inputs this program feeds it: slash-separated month (1–12), day (1–31) and
year fields, all digits.  `none` models `ValueError`. -/
def parseDateMDY (s : List Char) : Option PDate :=
  match splitOnChar '/' s with
  | [m, d, y] =>
    if allDigits m && !m.isEmpty && m.length ≤ 2 &&
       allDigits d && !d.isEmpty && d.length ≤ 2 &&
       allDigits y && y.length == 4 then
      let mv := natOfDigits m
      let dv := natOfDigits d
      if 1 ≤ mv && mv ≤ 12 && 1 ≤ dv && dv ≤ 31 then
        some ⟨mv, dv, natOfDigits y⟩
      else none
    else none
  | _ => none

/-! ## Canonical schema (`src/banking/utils.py`) -/

/-- `TransactionCategories` from `src/banking/utils.py`. -/
inductive TransactionCategories where
  | UNKNOWN
  | SALARY
  | HOUSING
  | RETIREMENT
  | INVESTMENTS
  | MEDICAL
  | VEHICLES
  | COMMUNICATIONS
  | HOUSEHOLD
  | GROCERIES
  | RESTARAUNTS
  | TAXES
  | PERSONAL
deriving DecidableEq, Repr

/-- The `.name` attribute of a `TransactionCategories` enum member. -/
def catName : TransactionCategories → String
  | .UNKNOWN => "UNKNOWN"
  | .SALARY => "SALARY"
  | .HOUSING => "HOUSING"
  | .RETIREMENT => "RETIREMENT"
  | .INVESTMENTS => "INVESTMENTS"
  | .MEDICAL => "MEDICAL"
  | .VEHICLES => "VEHICLES"
  | .COMMUNICATIONS => "COMMUNICATIONS"
  | .HOUSEHOLD => "HOUSEHOLD"
  | .GROCERIES => "GROCERIES"
  | .RESTARAUNTS => "RESTARAUNTS"
  | .TAXES => "TAXES"
  | .PERSONAL => "PERSONAL"

/-- The member names of `TransactionColumns` (`src/banking/utils.py`), in
declaration order: the canonical column set of the output schema. -/
def canonicalColumns : List String :=
  ["DATE", "CHECK_NO", "AMOUNT", "DESCRIPTION", "BANK", "ACCOUNT",
   "CATEGORY", "POSTED_BALANCE"]

/-! ## BBT field converters (`src/banking/bbt.py`) -/

/-- Regex `^\(\$` of `bbt.py` (`_pos_price_pattern`): starts with `($`. -/
def bbtParenPricePattern (s : String) : Bool :=
  leadsWith ['(', '$'] s.data

/-- Regex `^\$\+` of `bbt.py` (`_neg_price_pattern`): starts with `$+`. -/
def bbtPlusPricePattern (s : String) : Bool :=
  leadsWith ['$', '+'] s.data

/-- `bbt._convert_price`: `($X)` is a debit (negated), `$+X` a credit;
anything else is logged and returns `None`.  The `Decimal` constructor on
the sliced text can raise, which the source does not catch. -/
def bbt_convert_price (price : String) : Except String (Option Rat) :=
  if bbtParenPricePattern price then
    match parseDecimal ((price.data.drop 2).dropLast) with
    | some d => .ok (some (-d))
    | none => .error "InvalidOperation"
  else if bbtPlusPricePattern price then
    match parseDecimal (price.data.drop 2) with
    | some d => .ok (some d)
    | none => .error "InvalidOperation"
  else
    .ok none

/-- `bbt._convert_check`: `''` and `None` give the sentinel `-1`;
otherwise `numpy.int16` is tried, `ValueError` (non-numeric text) is caught
and gives `-1`, while an out-of-`int16`-range value raises `OverflowError`
(uncaught in the source). -/
def bbt_convert_check (check_number : Option String) : Except String Int :=
  match check_number with
  | none => .ok (-1)
  | some s =>
    if s = "" then .ok (-1)
    else
      match parseIntStr s with
      | none => .ok (-1)
      | some v =>
        if -32768 ≤ v ∧ v ≤ 32767 then .ok v else .error "OverflowError"

/-- `bbt._convert_posted_balance`: falsy input (`None`/`''`) gives `None`;
`$`-prefixed text is fed to `Decimal` (which can raise, uncaught); other
text is logged and gives `None`. -/
def bbt_convert_posted_balance (balance : Option String) : Except String (Option Rat) :=
  match balance with
  | none => .ok none
  | some b =>
    if b = "" then .ok none
    else if leadsWith ['$'] b.data then
      match parseDecimal (b.data.drop 1) with
      | some d => .ok (some d)
      | none => .error "InvalidOperation"
    else
      .ok none

/-- Model of Python `str.lower()`: lower-case each character. -/
def lowerStr (s : String) : String := String.mk (s.data.map Char.toLower)

/-- The `if`/`elif` keyword chain of `bbt._convert_category`, applied to the
already-lower-cased description. -/
def categoryFromLower (d : String) : TransactionCategories :=
  if strContains d "salary" then .SALARY
  else if strContains d "verizon" then .COMMUNICATIONS
  else if strContains d "moneyline fid" then .INVESTMENTS
  else if strContains d "kroger" || strContains d "giant" then .GROCERIES
  else if strContains d "va dmv" then .TAXES
  else if strContains d "dental" || strContains d "walgreens" then .MEDICAL
  else .UNKNOWN

/-- The category name `bbt._convert_category` computes for a non-`None`
description: the keyword chain on `str(description).lower()`, then `.name`. -/
def bbtCategoryName (description : String) : String :=
  catName (categoryFromLower (lowerStr description))

/-- Result type of `bbt._convert_category`: the `None` branch returns the
enum member itself, every other branch returns the member's name string. -/
inductive CategoryResult where
  | member (c : TransactionCategories)
  | nameStr (s : String)
deriving DecidableEq, Repr

/-- `bbt._convert_category` with its inconsistent boundary type:
`None` gives the `UNKNOWN` member, other input the category name string. -/
def bbt_convert_category : Option String → CategoryResult
  | none => .member .UNKNOWN
  | some s => .nameStr (bbtCategoryName s)

/-! ## Claims C5, C7 (BBT converters) -/

/-- C5: The BBT amount converter maps each well-formed encoding to its
signed decimal: `_convert_price("$+1.23")` equals Decimal 1.23,
`_convert_price("($2.34)")` equals Decimal -2.34, and for the malformed
inputs `"+100"` and `"$9000"` it returns null (`None`) without raising. -/
theorem bbt_price_wellformed_and_malformed :
    bbt_convert_price "$+1.23" = .ok (some (mkRat 123 100))
    ∧ bbt_convert_price "($2.34)" = .ok (some (-(mkRat 234 100)))
    ∧ bbt_convert_price "+100" = .ok none
    ∧ bbt_convert_price "$9000" = .ok none := by
  refine ⟨?_, ?_, ?_, ?_⟩ <;> decide

/-- C7: The check-number converter maps both `''` and `None` to the sentinel
`-1` (never to zero, never raising), and maps any non-numeric input to the
same sentinel with a logged message instead of raising. -/
theorem bbt_check_sentinel (s : String) (h : parseIntStr s = none) :
    bbt_convert_check none = .ok (-1)
    ∧ bbt_convert_check (some "") = .ok (-1)
    ∧ bbt_convert_check (some s) = .ok (-1)
    ∧ (-1 : Int) ≠ 0 := by
  refine ⟨rfl, rfl, ?_, by decide⟩
  unfold bbt_convert_check
  by_cases hs : s = ""
  · simp [hs]
  · simp [hs, h]

/-- Witness for C7 at the concrete non-numeric input `"12a"`. -/
theorem bbt_check_sentinel_witness :
    parseIntStr "12a" = none
    ∧ (bbt_convert_check none = .ok (-1)
       ∧ bbt_convert_check (some "") = .ok (-1)
       ∧ bbt_convert_check (some "12a") = .ok (-1)
       ∧ (-1 : Int) ≠ 0) :=
  ⟨by decide, bbt_check_sentinel "12a" (by decide)⟩

/-! ## Parser dispatch (`src/banking/parser_factory.py`) -/

/-- A registered `Parser` implementation, abstracted to what `from_file`
consults: its class name and its `is_file_parsable` probe (already applied
to the file's leading lines, which `from_file` reads once and passes to
every candidate). -/
structure Handler where
  className : String
  parsableOn : String → Bool

/-- The value `parsers[0](filepath)` constructs: a parser instance bound to
one input file. -/
structure BoundParser where
  handler : Handler
  filepath : String

/-- `ParserFactory.from_file`: collect every registered parser whose
`is_file_parsable` accepts the file; none → log and return `None`, exactly
one → instantiate it on the filepath, otherwise → raise `RuntimeError`. -/
def from_file (registered : List Handler) (filepath : String) :
    Except String (Option BoundParser) :=
  match registered.filter (fun k => k.parsableOn filepath) with
  | [] => .ok none
  | [k] => .ok (some ⟨k, filepath⟩)
  | _ :: _ :: _ => .error "multiple parsers available for file"

/-! ## Claim C1 -/

/-- C1: For every filepath, `ParserFactory.from_file` returns `None` (the
file is skipped, with a log message) when zero registered parsers report
the file parsable, returns an instance of that parser bound to the filepath
when exactly one reports it parsable, and raises (rather than returning)
when two or more report it parsable. -/
theorem from_file_dispatch_policy (registered : List Handler) (filepath : String) :
    (registered.filter (fun k => k.parsableOn filepath) = [] →
      from_file registered filepath = .ok none)
    ∧ (∀ k, registered.filter (fun k => k.parsableOn filepath) = [k] →
      from_file registered filepath = .ok (some ⟨k, filepath⟩))
    ∧ (2 ≤ (registered.filter (fun k => k.parsableOn filepath)).length →
      from_file registered filepath = .error "multiple parsers available for file") := by
  refine ⟨fun h => ?_, fun k h => ?_, fun h => ?_⟩
  · simp only [from_file, h]
  · simp only [from_file, h]
  · rcases hf : registered.filter (fun k => k.parsableOn filepath) with _ | ⟨a, _ | ⟨b, t⟩⟩
    · rw [hf] at h; simp at h
    · rw [hf] at h; simp at h
    · simp only [from_file, hf]

/-- An always-matching probe, for the C1 witness. -/
def handlerAlways (n : String) : Handler := ⟨n, fun _ => true⟩

/-- Witness for C1: with two handlers both reporting a file parsable,
`from_file` raises. -/
theorem from_file_dispatch_policy_witness :
    2 ≤ (([handlerAlways "Bbt", handlerAlways "Usaa"].filter
          (fun k => k.parsableOn "acct.csv")).length)
    ∧ from_file [handlerAlways "Bbt", handlerAlways "Usaa"] "acct.csv"
        = .error "multiple parsers available for file" :=
  ⟨by decide,
   (from_file_dispatch_policy [handlerAlways "Bbt", handlerAlways "Usaa"]
      "acct.csv").2.2 (by decide)⟩

/-! ## Claims C9, C10 (category classifier) -/

/-- No keyword of the `bbt._convert_category` rule list occurs in the
lower-cased description. -/
def noCategoryKeyword (s : String) : Prop :=
  strContains (lowerStr s) "salary" = false
  ∧ strContains (lowerStr s) "verizon" = false
  ∧ strContains (lowerStr s) "moneyline fid" = false
  ∧ strContains (lowerStr s) "kroger" = false
  ∧ strContains (lowerStr s) "giant" = false
  ∧ strContains (lowerStr s) "va dmv" = false
  ∧ strContains (lowerStr s) "dental" = false
  ∧ strContains (lowerStr s) "walgreens" = false

/-- C9: the classifier evaluates its ordered substring rules top-to-bottom
against the lower-cased description, first match wins, `UNKNOWN` when none
match: for *every* pair of descriptions with the same lower-casing the
category agrees (the classifier depends only on the lower-cased text, hence
is deterministic and case-insensitive), a description in which no keyword
occurs gets `UNKNOWN`, and when both `kroger` and `dental` occur the
earlier rule's category (`GROCERIES`) wins. -/
theorem bbt_category_first_match (s t u : String)
    (hlow : lowerStr s = lowerStr t) (hnone : noCategoryKeyword u) :
    bbtCategoryName s = bbtCategoryName t
    ∧ bbtCategoryName u = "UNKNOWN"
    ∧ bbtCategoryName "Kroger Dental" = "GROCERIES" := by
  obtain ⟨h1, h2, h3, h4, h5, h6, h7, h8⟩ := hnone
  refine ⟨?_, ?_, by decide⟩
  · simp only [bbtCategoryName, hlow]
  · simp only [bbtCategoryName, categoryFromLower, h1, h2, h3, h4, h5, h6, h7, h8,
      Bool.false_eq_true, if_false, Bool.or_self, catName]

/-- Witness for C9: case-insensitivity at a keyword-bearing pair
(`"KROGER Store"` vs `"kroger store"`) and `UNKNOWN` at a keyword-free
description. -/
theorem bbt_category_first_match_witness :
    lowerStr "KROGER Store" = lowerStr "kroger store"
    ∧ noCategoryKeyword "Rent Payment"
    ∧ (bbtCategoryName "KROGER Store" = bbtCategoryName "kroger store"
       ∧ bbtCategoryName "Rent Payment" = "UNKNOWN"
       ∧ bbtCategoryName "Kroger Dental" = "GROCERIES") :=
  ⟨by decide, by constructor <;> decide,
   bbt_category_first_match "KROGER Store" "kroger store" "Rent Payment" (by decide)
     (by constructor <;> decide)⟩

/-- C10: the classifier's return type is inconsistent at its boundary: for
`None` it returns the `UNKNOWN` enum member itself, whereas for every
non-`None` description it returns the string name of a category. -/
theorem bbt_category_none_boundary :
    bbt_convert_category none = .member .UNKNOWN
    ∧ ∀ s, bbt_convert_category (some s) = .nameStr (bbtCategoryName s) :=
  ⟨rfl, fun _ => rfl⟩

/-! ## USAA field converters (`src/banking/usaa.py`) -/

/-- Regex `^--\d+` of `usaa.py` (`_pos_price_pattern`). -/
def usaaPosPricePattern (s : String) : Bool :=
  match s.data with
  | '-' :: '-' :: c :: _ => c.isDigit
  | _ => false

/-- Regex `^-\d+` of `usaa.py` (`_neg_price_pattern`). -/
def usaaNegPricePattern (s : String) : Bool :=
  match s.data with
  | '-' :: c :: _ => c.isDigit
  | _ => false

/-- `usaa._convert_price`: a `--` prefix marks a posted value (kept
positive), a single `-` prefix is negated, anything else is logged and
returns `None`.  The `Decimal` constructor on the stripped text can raise,
which the source does not catch (its own `TODO` notes this). -/
def usaa_convert_price (price : String) : Except String (Option Rat) :=
  if usaaPosPricePattern price then
    match parseDecimal (price.data.drop 2) with
    | some d => .ok (some d)
    | none => .error "InvalidOperation"
  else if usaaNegPricePattern price then
    match parseDecimal (price.data.drop 1) with
    | some d => .ok (some (-d))
    | none => .error "InvalidOperation"
  else
    .ok none

/-- Python `str.strip('"')`: remove leading and trailing double quotes. -/
def stripQuotes (cs : List Char) : List Char :=
  ((cs.dropWhile (fun c => c == '"')).reverse.dropWhile (fun c => c == '"')).reverse

/-- `usaa._convert_date`: strip quotes, zero-pad a one-digit month (posted
rows are `01/01/2020`, forecasted ones `1/01/2020`), then
`strptime("%m/%d/%Y")`. -/
def usaa_convert_date (s : String) : Option PDate :=
  let cs := stripQuotes s.data
  let padded :=
    match splitOnChar '/' cs with
    | [a, _, _] => if a.length == 1 then '0' :: cs else cs
    | _ => cs
  parseDateMDY padded

/-- `usaa._convert_posted`: the flag column equals the posted marker. -/
def usaa_convert_posted (s : String) : Bool := s == "posted"

/-- `usaa._convert_category`: the identity (a `TODO` in the source). -/
def usaa_convert_category (s : String) : String := s

/-! ## Claim C4 -/

/-- C4 (code bug): the USAA amount converter handles the claim's two
well-formed encodings (`"--1.23"` to `1.23`, `"-2.34"` to `-2.34`) and
returns `None` for text matching neither sign pattern, but it is not total:
on `"--1x"` the sign pattern matches and the uncaught `Decimal` constructor
raises `InvalidOperation`, contradicting "never raises". -/
theorem usaa_price_raises_on_partial_match :
    usaa_convert_price "--1.23" = .ok (some (mkRat 123 100))
    ∧ usaa_convert_price "-2.34" = .ok (some (-(mkRat 234 100)))
    ∧ usaa_convert_price "abcdef" = .ok none
    ∧ usaa_convert_price "--1x" = .error "InvalidOperation" := by
  refine ⟨?_, ?_, ?_, ?_⟩ <;> decide

/-! ## USAA parse pipeline (`Usaa.parse`, `src/banking/usaa.py`) -/

/-- The five fields `Usaa._parse_textfile` reads from one raw line
(`FIELD_NAME_TO_INDEX` keeps columns 0, 2, 4, 5, 6 of the 7-column file). -/
structure UsaaRawLine where
  posted : String
  date : String
  description : String
  category : String
  amount : String

/-- One row after the per-column converters of `FIELD_CONVERTERS` ran. -/
structure UsaaRow where
  posted : Bool
  date : PDate
  description : String
  category : String
  amount : Option Rat
deriving DecidableEq, Repr

/-- Apply the `FIELD_CONVERTERS` of `Usaa` to one raw line, as
`pandas.read_csv` does; a converter raising aborts the read. -/
def usaaConvertRow (r : UsaaRawLine) : Except String UsaaRow := do
  let d ← match usaa_convert_date r.date with
    | some d => Except.ok d
    | none => Except.error "ValueError"
  let amt ← usaa_convert_price r.amount
  Except.ok ⟨usaa_convert_posted r.posted, d, r.description,
             usaa_convert_category r.category, amt⟩

/-- `Usaa._remove_unconfirmed_transactions`: drop the rows whose converted
`posted` flag is `False`. -/
def usaaRemoveUnconfirmed (rows : List UsaaRow) : List UsaaRow :=
  rows.filter (fun r => r.posted)

/-- A USAA output row after `Usaa._remap_column_names`: the four renamed
columns, the added `BANK`, `ACCOUNT` and `CHECK_NO` columns, and the
still-present `posted` column.  (`POSTED_BALANCE` is never added.) -/
structure UsaaCanonRow where
  posted : Bool
  DATE : PDate
  DESCRIPTION : String
  CATEGORY : String
  AMOUNT : Option Rat
  BANK : String
  ACCOUNT : Option Int
  CHECK_NO : Option Int
deriving DecidableEq, Repr

/-- `Usaa._remap_column_names` on one row: set `BANK` to the institution,
`ACCOUNT` to the account parsed from the filename, rename the raw columns,
and set `CHECK_NO` to `None`. -/
def usaaRemapRow (account : Option Int) (r : UsaaRow) : UsaaCanonRow :=
  ⟨r.posted, r.date, r.description, r.category, r.amount, "usaa", account, none⟩

/-- `Usaa._run_parse_checks` on the file's first line, with the three
checks short-circuiting in list order.  `check_column_count` holds by
construction here (a `UsaaRawLine` models the used fields of an
exactly-7-column line); `check_date_column` catches the converter's
`ValueError` and tests the result against `None`; `check_amount_column`
catches only `(ValueError, IndexError, KeyError)`, so an
`InvalidOperation` raised inside `_convert_price` propagates. -/
def usaa_run_parse_checks (r : UsaaRawLine) : Except String Bool :=
  if (usaa_convert_date r.date).isSome then
    match usaa_convert_price r.amount with
    | .error e => .error e
    | .ok v => .ok v.isSome
  else
    .ok false

/-- `Usaa.is_file_parsable` on the already-split lines: a zero-line file is
logged and not parsable; otherwise the first line must pass
`_run_parse_checks`. -/
def usaa_is_file_parsable (raws : List UsaaRawLine) : Except String Bool :=
  match raws with
  | [] => .ok false
  | r :: _ => usaa_run_parse_checks r

/-- `Usaa.parse`: raise `ValueError` unless `is_file_parsable` holds, then
read and convert the raw lines, drop unconfirmed rows, and remap the
columns. -/
def usaaParse (account : Option Int) (raws : List UsaaRawLine) :
    Except String (List UsaaCanonRow) := do
  let parsable ← usaa_is_file_parsable raws
  if parsable then
    let rows ← raws.mapM usaaConvertRow
    Except.ok ((usaaRemoveUnconfirmed rows).map (usaaRemapRow account))
  else
    Except.error "ValueError"

/-- The 6-line sample `FAKE_USAA_TRANSACTIONS` of
`src/banking/test_utils.py`: first row forecasted, the rest posted. -/
def fakeUsaaLines : List UsaaRawLine :=
  [⟨"forecasted", "01/01/2020", "FUNDS TRANSFER", "Uncategorized", "-3.50"⟩,
   ⟨"posted", "01/02/2020", "LEGIT EMPLOYER SALARY", "Paychecks/Salary", "1000"⟩,
   ⟨"posted", "01/03/2020", "LEGIT WASTE SERVICE", "Utilities", "-20.25"⟩,
   ⟨"posted", "01/04/2020", "LEGIT FOOD SERVICE", "Groceries", "-35.56"⟩,
   ⟨"posted", "01/10/2020", "INTEREST PAID", "Interest", "0.05"⟩,
   ⟨"posted", "01/11/2020", "LEGIT FOOD SERVICE", "Groceries", "-122.25"⟩]

/-! ## Claim C8 -/

/-- C8: rows whose flag column is not the posted marker are removed before
column remapping, so `Usaa.parse` (on a file passing its parsability gate)
outputs exactly the rows whose flag equals `"posted"`; on the 6-line sample
(first row forecasted, five posted) exactly the five posted rows survive. -/
theorem usaa_parse_keeps_only_posted (account : Option Int)
    (raws : List UsaaRawLine) (rows : List UsaaRow)
    (hgate : usaa_is_file_parsable raws = .ok true)
    (h : raws.mapM usaaConvertRow = .ok rows) :
    usaaParse account raws
      = .ok ((rows.filter (fun r => r.posted)).map (usaaRemapRow account))
    ∧ (∀ s, usaa_convert_posted s = (s == "posted"))
    ∧ (usaaParse none fakeUsaaLines).toOption.map
        (fun out => out.map (fun r => r.DESCRIPTION))
      = some ["LEGIT EMPLOYER SALARY", "LEGIT WASTE SERVICE",
              "LEGIT FOOD SERVICE", "INTEREST PAID", "LEGIT FOOD SERVICE"]
    ∧ (usaaParse none fakeUsaaLines).toOption.map List.length = some 5
    ∧ (usaaParse none fakeUsaaLines).toOption.map
        (fun out => out.all (fun r => r.posted)) = some true := by
  refine ⟨?_, fun s => rfl, ?_, ?_, ?_⟩
  · simp only [usaaParse, hgate, h, usaaRemoveUnconfirmed]
    rfl
  · decide
  · decide
  · decide

/-- The converted rows of the 6-line USAA sample, for the C8 witness. -/
def fakeUsaaConverted : List UsaaRow :=
  [⟨false, ⟨1, 1, 2020⟩, "FUNDS TRANSFER", "Uncategorized", some (-(mkRat 350 100))⟩,
   ⟨true, ⟨1, 2, 2020⟩, "LEGIT EMPLOYER SALARY", "Paychecks/Salary", none⟩,
   ⟨true, ⟨1, 3, 2020⟩, "LEGIT WASTE SERVICE", "Utilities", some (-(mkRat 2025 100))⟩,
   ⟨true, ⟨1, 4, 2020⟩, "LEGIT FOOD SERVICE", "Groceries", some (-(mkRat 3556 100))⟩,
   ⟨true, ⟨1, 10, 2020⟩, "INTEREST PAID", "Interest", none⟩,
   ⟨true, ⟨1, 11, 2020⟩, "LEGIT FOOD SERVICE", "Groceries", some (-(mkRat 12225 100))⟩]

/-- Witness for C8 on the concrete 6-line sample. -/
theorem usaa_parse_keeps_only_posted_witness :
    usaa_is_file_parsable fakeUsaaLines = .ok true
    ∧ fakeUsaaLines.mapM usaaConvertRow = .ok fakeUsaaConverted
    ∧ usaaParse none fakeUsaaLines
        = .ok ((fakeUsaaConverted.filter (fun r => r.posted)).map (usaaRemapRow none)) :=
  ⟨by decide, by decide,
   (usaa_parse_keeps_only_posted none fakeUsaaLines fakeUsaaConverted
      (by decide) (by decide)).1⟩

/-! ## BBT parse pipeline (`Bbt.parse`, `src/banking/bbt.py`) -/

/-- One raw BBT record, columns as in the exported file's header
`Date,Transaction Type,Check Number,Description,Amount,Daily Posted Balance`. -/
structure BbtRawRow where
  date : String
  transactionType : String
  checkNumber : String
  description : String
  amount : String
  dailyPostedBalance : String

/-- A BBT canonical output row (all columns of `TransactionColumns`).
`CATEGORY` is `none` until `Bbt._fill_categories` runs. -/
structure BbtCanonRow where
  DATE : PDate
  CHECK_NO : Int
  AMOUNT : Rat
  DESCRIPTION : String
  BANK : String
  ACCOUNT : Int
  CATEGORY : Option CategoryResult
  POSTED_BALANCE : Option Rat
deriving DecidableEq, Repr

/-- Modelled from the spec: the concrete base `Parser.parse` (read raw
rows, convert fields with `Bbt.COL_2_CONVERTER`, remap raw column names to
canonical ones via `Bbt._FIELD_2_TRANSACTION`, fill the missing canonical
columns with null, set `BANK` and `ACCOUNT`) is absent from
`src/banking/parser.py`, which holds only an abstract `parse`.  The field
converters themselves are the ones of `src/banking/bbt.py`; per the spec a
failed conversion of an anchor field (date or amount) fails the parse. -/
def bbtConvertRow (account : Int) (r : BbtRawRow) : Except String BbtCanonRow := do
  let d ← match parseDateMDY r.date.data with
    | some d => Except.ok d
    | none => Except.error "ValueError"
  let chk ← bbt_convert_check (some r.checkNumber)
  let amtOpt ← bbt_convert_price r.amount
  let amt ← match amtOpt with
    | some v => Except.ok v
    | none => Except.error "anchor amount failed conversion"
  let bal ← bbt_convert_posted_balance (some r.dailyPostedBalance)
  Except.ok ⟨d, chk, amt, r.description, "bbt", account, none, bal⟩

/-- `Bbt._fill_categories`: overwrite `CATEGORY` with
`_convert_category(DESCRIPTION)` on every row. -/
def bbt_fill_categories (rows : List BbtCanonRow) : List BbtCanonRow :=
  rows.map (fun r => { r with CATEGORY := some (bbt_convert_category (some r.DESCRIPTION)) })

/-- Wrap-around of `astype(numpy.int16)`. -/
def toInt16 (i : Int) : Int := (i + 32768) % 65536 - 32768

/-- The `astype({CHECK_NO: numpy.int16})` step of `Bbt.parse`. -/
def bbt_astype_check (rows : List BbtCanonRow) : List BbtCanonRow :=
  rows.map (fun r => { r with CHECK_NO := toInt16 r.CHECK_NO })

/-- `Bbt.parse`: the (spec-modelled) base parse, then `_fill_categories`,
then the `int16` cast of the check-number column. -/
def bbtParse (account : Int) (raws : List BbtRawRow) :
    Except String (List BbtCanonRow) := do
  let rows ← raws.mapM (bbtConvertRow account)
  Except.ok (bbt_astype_check (bbt_fill_categories rows))

/-- The 5-row sample `FAKE_BBT_TRANSACTIONS` of `src/banking/test_utils.py`
(credit `$+1000` on day 1, debit `($42)` on day 2, credit `$+100` on day
32, debit `($42)` on day 34, debit `($42)` with check number 301 on day
36). -/
def fakeBbtRows : List BbtRawRow :=
  [⟨"01/01/2020", "Credit", "", "LEGIT EMPLOYER SALARY", "$+1000", "$0.00"⟩,
   ⟨"01/02/2020", "Debit", "", "KROGER STORE DEBIT CARD", "($42)", "$958"⟩,
   ⟨"02/01/2020", "Deposit", "", "TRANSFER FROM", "$+100", ""⟩,
   ⟨"02/03/2020", "POS", "", "WALGREENS DEBIT PURCHASE", "($42)", "$1016"⟩,
   ⟨"02/05/2020", "POS", "301", "Check Payment", "($42)", ""⟩]

/-- The last non-null entry of a sparse column. -/
def lastNonNull (l : List (Option α)) : Option α := (l.filterMap id).getLast?

/-! ## Claim C3 -/

/-- C3: parsing the 5-row BBT-style sample via `Bbt.parse` succeeds and
yields exactly 5 canonical rows; the posted-balance column's last non-null
value equals 1016 and the check-number column equals `[-1,-1,-1,-1,301]`. -/
theorem bbt_parse_end_to_end :
    (bbtParse 1234 fakeBbtRows).toOption.map List.length = some 5
    ∧ (bbtParse 1234 fakeBbtRows).toOption.map
        (fun out => lastNonNull (out.map (fun r => r.POSTED_BALANCE)))
      = some (some (mkRat 1016 1))
    ∧ (bbtParse 1234 fakeBbtRows).toOption.map
        (fun out => out.map (fun r => r.CHECK_NO))
      = some [-1, -1, -1, -1, 301] := by
  refine ⟨?_, ?_, ?_⟩ <;> decide

/-! ## Claim C6 -/

/-- C6 counterexample: the posted-balance converter is not total — on
`"$abc"` the `$` branch is taken and the uncaught `Decimal` constructor
raises `InvalidOperation` instead of returning null. -/
theorem bbt_posted_balance_raises :
    bbt_convert_posted_balance (some "$abc") = .error "InvalidOperation" := by
  decide

/-- C6 (amended): empty or missing input yields null (not the check-number
sentinel); `'$'` followed by a valid decimal number yields that amount; any
other input *not starting with `'$'`* returns null with a logged error;
but an input starting with `'$'` whose remainder is not a valid decimal
raises. -/
theorem bbt_posted_balance_behaviour (b : String) :
    bbt_convert_posted_balance none = .ok none
    ∧ bbt_convert_posted_balance (some "") = .ok none
    ∧ (b ≠ "" → leadsWith ['$'] b.data = false →
        bbt_convert_posted_balance (some b) = .ok none)
    ∧ (∀ d, leadsWith ['$'] b.data = true → parseDecimal (b.data.drop 1) = some d →
        bbt_convert_posted_balance (some b) = .ok (some d)) := by
  refine ⟨rfl, rfl, fun hne hpat => ?_, fun d hpat hdec => ?_⟩
  · simp [bbt_convert_posted_balance, hne, hpat]
  · have hne : b ≠ "" := fun h => by subst h; exact absurd hpat (by decide)
    rw [List.drop_one] at hdec
    simp [bbt_convert_posted_balance, hne, hpat, hdec]

/-- Witness for C6 at `"xyz"` (no `$` prefix) and `"$42.42"` (valid). -/
theorem bbt_posted_balance_behaviour_witness :
    ("xyz" ≠ "" ∧ leadsWith ['$'] "xyz".data = false
      ∧ bbt_convert_posted_balance (some "xyz") = .ok none)
    ∧ (leadsWith ['$'] "$42.42".data = true
      ∧ parseDecimal ("$42.42".data.drop 1) = some (mkRat 4242 100)
      ∧ bbt_convert_posted_balance (some "$42.42") = .ok (some (mkRat 4242 100))) :=
  ⟨⟨by decide, by decide,
    (bbt_posted_balance_behaviour "xyz").2.2.1 (by decide) (by decide)⟩,
   ⟨by decide, by decide,
    (bbt_posted_balance_behaviour "$42.42").2.2.2 (mkRat 4242 100) (by decide) (by decide)⟩⟩

/-! ## Column remapping (claim C2) -/

/-- `Bbt._FIELD_2_TRANSACTION` of `src/banking/bbt.py`: raw column name to
canonical column name. -/
def bbtField2Transaction : List (String × String) :=
  [("Date", "DATE"), ("Check Number", "CHECK_NO"), ("Description", "DESCRIPTION"),
   ("Amount", "AMOUNT"), ("Daily Posted Balance", "POSTED_BALANCE")]

/-- `Usaa._FIELD_2_TRANSACTION` of `src/banking/usaa.py`. -/
def usaaField2Transaction : List (String × String) :=
  [("date", "DATE"), ("amount", "AMOUNT"), ("description", "DESCRIPTION"),
   ("category", "CATEGORY")]

/-- `pandas.DataFrame.rename(columns=mapping)` on one column name:
mapped names are replaced, others kept. -/
def renameColumn (mapping : List (String × String)) (c : String) : String :=
  (mapping.lookup c).getD c

/-- `rename(columns=mapping)` on a frame's column list. -/
def renameColumns (mapping : List (String × String)) (cols : List String) : List String :=
  cols.map (renameColumn mapping)

/-- `frame[c] = value` on the column list: appends the column when new,
keeps the list unchanged when the column exists (it is overwritten). -/
def assignColumn (cols : List String) (c : String) : List String :=
  if c ∈ cols then cols else cols ++ [c]

/-- `Usaa._remap_column_names` on the column list: assign `BANK`, assign
`ACCOUNT`, rename the raw columns, assign `CHECK_NO`. -/
def usaaRemapColumns (cols : List String) : List String :=
  assignColumn
    (renameColumns usaaField2Transaction (assignColumn (assignColumn cols "BANK") "ACCOUNT"))
    "CHECK_NO"

/-- The column list `Usaa._parse_textfile` produces (the keys of
`FIELD_NAME_TO_INDEX`). -/
def usaaRawColumns : List String := ["posted", "date", "description", "category", "amount"]

/-- Modelled from the spec: the base `Parser.remap_cols` (absent from
`src/banking/parser.py`; §4.4 of the spec): rename the mapped columns, then
add every canonical column not yet present, filled with null. -/
def remap_cols (mapping : List (String × String)) (cols : List String) : List String :=
  let renamed := renameColumns mapping cols
  renamed ++ canonicalColumns.filter (fun c => decide (c ∉ renamed))

theorem mem_assignColumn_self (cols : List String) (c : String) :
    c ∈ assignColumn cols c := by
  unfold assignColumn
  split
  · assumption
  · simp

theorem mem_assignColumn_of_mem {a : String} {cols : List String} (c : String)
    (h : a ∈ cols) : a ∈ assignColumn cols c := by
  unfold assignColumn
  split
  · exact h
  · exact List.mem_append_left _ h

theorem mem_of_mem_assignColumn {a c : String} {cols : List String}
    (h : a ∈ assignColumn cols c) : a ∈ cols ∨ a = c := by
  unfold assignColumn at h
  split at h
  · exact .inl h
  · rcases List.mem_append.1 h with h' | h'
    · exact .inl h'
    · simp at h'
      exact .inr h'

/-- The USAA rename mapping never produces `POSTED_BALANCE`. -/
theorem usaaRename_pb {c : String}
    (h : renameColumn usaaField2Transaction c = "POSTED_BALANCE") :
    c = "POSTED_BALANCE" := by
  by_cases h1 : c = "date"
  · subst h1; exact absurd h (by decide)
  by_cases h2 : c = "amount"
  · subst h2; exact absurd h (by decide)
  by_cases h3 : c = "description"
  · subst h3; exact absurd h (by decide)
  by_cases h4 : c = "category"
  · subst h4; exact absurd h (by decide)
  have e1 : (c == "date") = false := beq_eq_false_iff_ne.mpr h1
  have e2 : (c == "amount") = false := beq_eq_false_iff_ne.mpr h2
  have e3 : (c == "description") = false := beq_eq_false_iff_ne.mpr h3
  have e4 : (c == "category") = false := beq_eq_false_iff_ne.mpr h4
  simpa [renameColumn, usaaField2Transaction, List.lookup, e1, e2, e3, e4] using h

/-- C2 counterexample: after `Usaa._remap_column_names` runs on the raw
USAA column list, not every canonical column is present —
`POSTED_BALANCE` is missing from the output. -/
theorem usaa_remap_missing_posted_balance :
    ¬ (∀ c ∈ canonicalColumns, c ∈ usaaRemapColumns usaaRawColumns) := by
  decide

/-- The raw column list of a BBT export
(`Date,Transaction Type,Check Number,Description,Amount,Daily Posted Balance`,
the header of `FAKE_BBT_TRANSACTIONS` in `src/banking/test_utils.py`). -/
def bbtRawColumns : List String :=
  ["Date", "Transaction Type", "Check Number", "Description", "Amount",
   "Daily Posted Balance"]

/-- C2 (amended): after remapping, the BBT handler (whose remap is the
spec-modelled base `remap_cols`) exposes every canonical column for *any*
raw column list `bcols`, with no hypothesis on it; the USAA handler
(`_remap_column_names`) exposes the canonical columns DATE, CHECK_NO,
AMOUNT, DESCRIPTION, BANK, ACCOUNT and CATEGORY on its raw tables (any
`cols` containing its four mapped raw names), but omits POSTED_BALANCE
instead of filling it with null. -/
theorem remap_canonical_columns (bcols cols : List String)
    (hdate : "date" ∈ cols) (hamount : "amount" ∈ cols)
    (hdesc : "description" ∈ cols) (hcat : "category" ∈ cols)
    (hpb : "POSTED_BALANCE" ∉ cols) :
    (∀ c ∈ canonicalColumns, c ∈ remap_cols bbtField2Transaction bcols)
    ∧ "DATE" ∈ usaaRemapColumns cols
    ∧ "CHECK_NO" ∈ usaaRemapColumns cols
    ∧ "AMOUNT" ∈ usaaRemapColumns cols
    ∧ "DESCRIPTION" ∈ usaaRemapColumns cols
    ∧ "BANK" ∈ usaaRemapColumns cols
    ∧ "ACCOUNT" ∈ usaaRemapColumns cols
    ∧ "CATEGORY" ∈ usaaRemapColumns cols
    ∧ "POSTED_BALANCE" ∉ usaaRemapColumns cols := by
  have mem_rename : ∀ (c : String) (l : List String), c ∈ l →
      renameColumn usaaField2Transaction c ∈ renameColumns usaaField2Transaction l :=
    fun c l hc => List.mem_map.2 ⟨c, hc, rfl⟩
  have up : ∀ {a : String}, a ∈ cols →
      a ∈ assignColumn (assignColumn cols "BANK") "ACCOUNT" :=
    fun h => mem_assignColumn_of_mem _ (mem_assignColumn_of_mem _ h)
  refine ⟨?_, ?_, ?_, ?_, ?_, ?_, ?_, ?_, ?_⟩
  · intro c hc
    unfold remap_cols
    by_cases hr : c ∈ renameColumns bbtField2Transaction bcols
    · exact List.mem_append_left _ hr
    · refine List.mem_append_right _ ?_
      simp only [List.mem_filter, decide_eq_true_eq]
      exact ⟨hc, hr⟩
  · exact mem_assignColumn_of_mem _ (mem_rename "date" _ (up hdate))
  · exact mem_assignColumn_self _ _
  · exact mem_assignColumn_of_mem _ (mem_rename "amount" _ (up hamount))
  · exact mem_assignColumn_of_mem _ (mem_rename "description" _ (up hdesc))
  · exact mem_assignColumn_of_mem _
      (mem_rename "BANK" _ (mem_assignColumn_of_mem _ (mem_assignColumn_self _ _)))
  · exact mem_assignColumn_of_mem _ (mem_rename "ACCOUNT" _ (mem_assignColumn_self _ _))
  · exact mem_assignColumn_of_mem _ (mem_rename "category" _ (up hcat))
  · intro hmem
    rcases mem_of_mem_assignColumn hmem with hr | habs
    · rcases List.mem_map.1 hr with ⟨c, hc, he⟩
      have hcpb : c = "POSTED_BALANCE" := usaaRename_pb he
      subst hcpb
      rcases mem_of_mem_assignColumn hc with hc' | habs'
      · rcases mem_of_mem_assignColumn hc' with hc'' | habs''
        · exact hpb hc''
        · exact absurd habs'' (by decide)
      · exact absurd habs' (by decide)
    · exact absurd habs (by decide)

/-- Witness for C2 (amended) at the concrete BBT and USAA raw column
lists: the BBT remap of `bbtRawColumns` carries every canonical column,
while the USAA remap of `usaaRawColumns` misses `POSTED_BALANCE`. -/
theorem remap_canonical_columns_witness :
    ("date" ∈ usaaRawColumns ∧ "amount" ∈ usaaRawColumns
      ∧ "description" ∈ usaaRawColumns ∧ "category" ∈ usaaRawColumns
      ∧ "POSTED_BALANCE" ∉ usaaRawColumns)
    ∧ (∀ c ∈ canonicalColumns, c ∈ remap_cols bbtField2Transaction bbtRawColumns)
    ∧ "POSTED_BALANCE" ∉ usaaRemapColumns usaaRawColumns :=
  ⟨⟨by decide, by decide, by decide, by decide, by decide⟩,
   (remap_canonical_columns bbtRawColumns usaaRawColumns (by decide) (by decide)
      (by decide) (by decide) (by decide)).1,
   (remap_canonical_columns bbtRawColumns usaaRawColumns (by decide) (by decide)
      (by decide) (by decide) (by decide)).2.2.2.2.2.2.2.2⟩
